import Mathlib

/-!
Shallow embedding of the `rdb` C++ header (`src/include/rdb.h`), a thin RAII
wrapper over SQLite.  The wrapper classes `Database`, `Statement` and
`Database::Transaction` are translated into Lean functions over explicit
state.  The SQLite engine itself is an external dependency of the repository;
its primitives (`sqlite3_exec`, `sqlite3_step`, `sqlite3_bind_*`,
`sqlite3_column_*`, `sqlite3_reset`) are modelled from their documented
behaviour, parametrised over an abstract database-contents type `σ` and an
abstract per-statement compiled program.  C++ exceptions (`SQLiteException`)
are modelled by the `Cpp` result type, which carries the post-call state on
both the normal-return and the exception path, since C++ objects persist
across a throw.
-/

namespace rdb

/-- A SQLite value as seen through the wrapper: INTEGER, REAL, TEXT or NULL.
REAL is modelled by exact rationals; the wrapper only stores and returns
these values, it never computes with them. -/
inductive Value : Type
  | intV (i : Int)
  | doubleV (d : Rat)
  | textV (t : String)
  | nullV
deriving DecidableEq

/-- One result row: the column values, in column order.  A column index past
the end of the list behaves as NULL (engine-defined fringe). -/
abbrev Row : Type := List Value

/-- Result of a C++ member-function call: a normal return carrying the value,
or a thrown `SQLiteException` carrying its message.  The post-call state is
present in both cases because the C++ objects outlive the throw. -/
inductive Cpp (α : Type) (σ : Type) : Type
  | ret (a : α) (st : σ)
  | exn (msg : String) (st : σ)

/-- The state component of a call result, on either path. -/
def Cpp.state {α σ : Type} : Cpp α σ → σ
  | .ret _ st => st
  | .exn _ st => st

/-- True exactly when the call returned normally (no exception). -/
def Cpp.isRet {α σ : Type} : Cpp α σ → Bool
  | .ret _ _ => true
  | .exn _ _ => false

/-- Engine coercion of a stored value to INTEGER, as performed by
`sqlite3_column_int`: NULL yields 0, REAL is truncated toward zero, and the
engine's numeric parse of TEXT is abstracted to Lean's integer parse
(exact on integral text, 0 otherwise). -/
def Value.asInt : Value → Int
  | .intV i => i
  | .doubleV d => if 0 ≤ d then d.floor else d.ceil
  | .textV t => (t.toInt?).getD 0
  | .nullV => 0

/-- Engine coercion of a stored value to REAL, as performed by
`sqlite3_column_double`: NULL yields 0 and the numeric parse of TEXT is
abstracted as in `Value.asInt`. -/
def Value.asDouble : Value → Rat
  | .intV i => (i : Rat)
  | .doubleV d => d
  | .textV t => (((t.toInt?).getD 0 : Int) : Rat)
  | .nullV => 0

/-- Engine rendering of a stored value as the TEXT pointer returned by
`sqlite3_column_text`: NULL yields a null pointer (`none`); the engine's
decimal rendering of numeric values is abstracted by `toString`. -/
def Value.asTextPtr : Value → Option String
  | .intV i => some (toString i)
  | .doubleV d => some (toString d)
  | .textV t => some t
  | .nullV => none

/-- The cursor state machine of a prepared statement: `ready` (no row fetched
since the last reset), `hasRow` (a row is available, together with the rows
still pending after it), `done` (execution finished; `Exhausted`, or the
post-error state). -/
inductive Cursor : Type
  | ready
  | hasRow (cur : Row) (pending : List Row)
  | done
deriving DecidableEq

/-- The engine-compiled form of one SQL statement (`sqlite3_stmt` minus its
runtime cursor/bindings): the number of parameter slots, the engine's
name-to-index resolution (`sqlite3_bind_parameter_index`, 0 when the name
matches no parameter), and the statement's execution semantics: from the
bound parameters and the current database contents, either an engine error
message or the produced result rows and updated contents. -/
structure StmtProg (σ : Type) : Type where
  numParams : Nat
  nameIndex : String → Nat
  exec : List (Option Value) → σ → Except String (List Row × σ)

/-- The wrapper's `Statement`: a compiled program, the bound-parameter slots
(1-based parameter `i` lives at list position `i - 1`; `none` = never bound,
which the engine treats as NULL), and the cursor. -/
structure Statement (σ : Type) : Type where
  prog : StmtProg σ
  binds : List (Option Value)
  cursor : Cursor

/-- The engine connected to a database: the effect of `sqlite3_exec` on an
arbitrary (non-transaction-control) SQL string over the current contents,
returning the post-execution contents and an optional error message, plus
a `busy` flag abstracting the external lock conditions under which COMMIT
fails with SQLITE_BUSY (`database is locked`). -/
structure Engine (σ : Type) : Type where
  apply : String → σ → σ × Option String
  busy : Bool

/-- The wrapper's `Database`: the engine, the committed (durable) contents,
and the contents of the open explicit transaction when one is active
(`BEGIN` has been executed and neither `COMMIT` nor `ROLLBACK` yet). -/
structure Database (σ : Type) : Type where
  eng : Engine σ
  committed : σ
  txn : Option σ

/-- The contents an ordinary statement reads and writes: the open
transaction's working contents when one is active, else the committed
contents (autocommit mode). -/
def Database.working {σ : Type} (db : Database σ) : σ :=
  db.txn.getD db.committed

/-- Store back the working contents after a statement ran: into the open
transaction when one is active, else directly into the committed contents. -/
def Database.setWorking {σ : Type} (db : Database σ) (w : σ) : Database σ :=
  match db.txn with
  | some _ => { db with txn := some w }
  | none => { db with committed := w }

/-- SQLite result code: success. -/
def SQLITE_OK : Int := 0

/-- SQLite result code: bind index out of range. -/
def SQLITE_RANGE : Int := 25

/-- SQLite result code: API misuse, e.g. binding between `step` and `reset`. -/
def SQLITE_MISUSE : Int := 21

/-- Engine bind primitive shared by `sqlite3_bind_int` / `_double` / `_text`:
per the SQLite contract, binding is refused with SQLITE_MISUSE once `step`
has been called and `reset` has not, refused with SQLITE_RANGE when the index
is outside 1..numParams, and otherwise stores the value and returns
SQLITE_OK.  The status code is returned to the caller, which the wrapper
discards. -/
def sqlite3_bind_value {σ : Type} (s : Statement σ) (index : Int) (v : Value) :
    Int × Statement σ :=
  if s.cursor = Cursor.ready then
    if 1 ≤ index ∧ index ≤ (s.prog.numParams : Int) then
      (SQLITE_OK, { s with binds := s.binds.set (index - 1).toNat (some v) })
    else (SQLITE_RANGE, s)
  else (SQLITE_MISUSE, s)

/-- `sqlite3_bind_int`. -/
def sqlite3_bind_int {σ : Type} (s : Statement σ) (index : Int) (val : Int) :
    Int × Statement σ :=
  sqlite3_bind_value s index (Value.intV val)

/-- `sqlite3_bind_double`. -/
def sqlite3_bind_double {σ : Type} (s : Statement σ) (index : Int) (val : Rat) :
    Int × Statement σ :=
  sqlite3_bind_value s index (Value.doubleV val)

/-- `sqlite3_bind_text` (the wrapper always passes SQLITE_TRANSIENT, so the
string is copied; ownership is invisible at this level). -/
def sqlite3_bind_text {σ : Type} (s : Statement σ) (index : Int) (val : String) :
    Int × Statement σ :=
  sqlite3_bind_value s index (Value.textV val)

/-- `sqlite3_bind_parameter_index`: the index of the named parameter, or 0
when the name matches no parameter of the compiled statement. -/
def sqlite3_bind_parameter_index {σ : Type} (s : Statement σ) (name : String) : Nat :=
  s.prog.nameIndex name

/-- The current row's value at a column, as the engine sees it: only
meaningful in `hasRow`; outside a row SQLite yields NULL-like defaults
(engine-defined fringe the wrapper does not guard). -/
def sqlite3_column_value {σ : Type} (s : Statement σ) (col : Nat) : Value :=
  match s.cursor with
  | .hasRow cur _ => cur.getD col Value.nullV
  | _ => Value.nullV

/-- `sqlite3_column_text`: NULL columns come back as a null pointer. -/
def sqlite3_column_text {σ : Type} (s : Statement σ) (col : Nat) : Option String :=
  (sqlite3_column_value s col).asTextPtr

/-- Outcome of one `sqlite3_step` call: a row is available (carrying the row
and the rows still pending), execution completed, or an engine error. -/
inductive StepR : Type
  | row (cur : Row) (pending : List Row)
  | done
  | err (msg : String)

/-- First `sqlite3_step` of an execution (from `ready`, or from `done` via
the prepare_v2 automatic reset): runs the compiled program on the working
contents; on error the statement is left needing a reset, on success the
produced rows are streamed starting with the first. -/
def sqlite3_stepStart {σ : Type} (s : Statement σ) (db : Database σ) :
    StepR × Statement σ × Database σ :=
  match s.prog.exec s.binds db.working with
  | .error m => (.err m, { s with cursor := Cursor.done }, db)
  | .ok (rows, w) =>
    match rows with
    | [] => (.done, { s with cursor := Cursor.done }, db.setWorking w)
    | r :: rest => (.row r rest, { s with cursor := Cursor.hasRow r rest }, db.setWorking w)

/-- `sqlite3_step`: from `ready` (or `done`, via the automatic reset of
prepare_v2 statements) it begins an execution; from `hasRow` it advances to
the next pending row or to completion. -/
def sqlite3_step {σ : Type} (s : Statement σ) (db : Database σ) :
    StepR × Statement σ × Database σ :=
  match s.cursor with
  | .ready => sqlite3_stepStart s db
  | .hasRow _ pending =>
    match pending with
    | [] => (.done, { s with cursor := Cursor.done }, db)
    | r :: rest => (.row r rest, { s with cursor := Cursor.hasRow r rest }, db)
  | .done => sqlite3_stepStart s db

/-- `sqlite3_exec` as driven by `Database::execute`: the transaction-control
strings the wrapper itself issues (`BEGIN;`, `COMMIT;`, `ROLLBACK;`) get
their SQLite semantics — including failure when no transaction is active and
COMMIT failure while the engine is busy, in which case the transaction stays
open — and every other SQL string is delegated to the engine's `apply` over
the working contents. -/
def sqlite3_exec {σ : Type} (db : Database σ) (sql : String) :
    Option String × Database σ :=
  if sql = "BEGIN;" then
    match db.txn with
    | some _ => (some "cannot start a transaction within a transaction", db)
    | none => (none, { db with txn := some db.committed })
  else if sql = "COMMIT;" then
    match db.txn with
    | none => (some "cannot commit - no transaction is active", db)
    | some w =>
      if db.eng.busy then (some "database is locked", db)
      else (none, { db with committed := w, txn := none })
  else if sql = "ROLLBACK;" then
    match db.txn with
    | none => (some "cannot rollback - no transaction is active", db)
    | some _ => (none, { db with txn := none })
  else
    let (w, e) := db.eng.apply sql db.working
    (e, db.setWorking w)

/-- `Database::execute`: runs the SQL through `sqlite3_exec` and throws
`SQLiteException` with the engine's message on failure. -/
def Database.execute {σ : Type} (db : Database σ) (sql : String) :
    Cpp Unit (Database σ) :=
  match sqlite3_exec db sql with
  | (none, db1) => .ret () db1
  | (some m, db1) => .exn m db1

/-- `Database::prepare` / the `Statement` constructor: a freshly prepared
statement over an engine-compiled program, with no parameter bound (SQLite
treats unbound parameters as NULL) and the cursor in `ready`.  Compilation
failure throws in the constructor and produces no statement; the claims under
study all concern successfully prepared statements, so the compiled program
is taken as given. -/
def Database.prepare {σ : Type} (prog : StmtProg σ) : Statement σ :=
  ⟨prog, List.replicate prog.numParams none, Cursor.ready⟩

/-- Positional `Statement::bind(int, int)`: forwards to `sqlite3_bind_int`
and discards the status code — the call always returns normally. -/
def Statement.bindInt {σ : Type} (index : Int) (val : Int) (s : Statement σ) :
    Statement σ :=
  (sqlite3_bind_int s index val).2

/-- Positional `Statement::bind(int, double)`: status code discarded. -/
def Statement.bindDouble {σ : Type} (index : Int) (val : Rat) (s : Statement σ) :
    Statement σ :=
  (sqlite3_bind_double s index val).2

/-- Positional `Statement::bind(int, const std::string&)`: status code
discarded. -/
def Statement.bindText {σ : Type} (index : Int) (val : String) (s : Statement σ) :
    Statement σ :=
  (sqlite3_bind_text s index val).2

/-- Named `Statement::bind(const std::string&, int)`: resolves the name via
`sqlite3_bind_parameter_index` and binds only when the index is nonzero; an
unresolvable name leaves the statement untouched. -/
def Statement.bindNamedInt {σ : Type} (name : String) (val : Int) (s : Statement σ) :
    Statement σ :=
  let idx := sqlite3_bind_parameter_index s name
  if idx ≠ 0 then (sqlite3_bind_int s (idx : Int) val).2 else s

/-- Named `Statement::bind(const std::string&, double)`. -/
def Statement.bindNamedDouble {σ : Type} (name : String) (val : Rat) (s : Statement σ) :
    Statement σ :=
  let idx := sqlite3_bind_parameter_index s name
  if idx ≠ 0 then (sqlite3_bind_double s (idx : Int) val).2 else s

/-- Named `Statement::bind(const std::string&, const std::string&)`. -/
def Statement.bindNamedText {σ : Type} (name : String) (val : String) (s : Statement σ) :
    Statement σ :=
  let idx := sqlite3_bind_parameter_index s name
  if idx ≠ 0 then (sqlite3_bind_text s (idx : Int) val).2 else s

/-- `Statement::step`: true on SQLITE_ROW, false on SQLITE_DONE, and throws
`SQLiteException` on any other engine outcome. -/
def Statement.step {σ : Type} (s : Statement σ) (db : Database σ) :
    Cpp Bool (Statement σ × Database σ) :=
  match sqlite3_step s db with
  | (.row _ _, s1, db1) => .ret true (s1, db1)
  | (.done, s1, db1) => .ret false (s1, db1)
  | (.err m, s1, db1) => .exn m (s1, db1)

/-- `Statement::reset`: `sqlite3_reset` returns the cursor to `ready` and
leaves the bound parameters as they are; its status code is discarded. -/
def Statement.reset {σ : Type} (s : Statement σ) : Statement σ :=
  { s with cursor := Cursor.ready }

/-- `Statement::getInt`. -/
def Statement.getInt {σ : Type} (s : Statement σ) (col : Nat) : Int :=
  (sqlite3_column_value s col).asInt

/-- `Statement::getDouble`. -/
def Statement.getDouble {σ : Type} (s : Statement σ) (col : Nat) : Rat :=
  (sqlite3_column_value s col).asDouble

/-- `Statement::getText`: a null TEXT pointer (SQL NULL) becomes the empty
string, never a null reference. -/
def Statement.getText {σ : Type} (s : Statement σ) (col : Nat) : String :=
  match sqlite3_column_text s col with
  | some t => t
  | none => ""

/-- The body of `forEachRow`'s `while (step()) fn(*this);` loop together with
the trailing `reset()`, entered with the cursor positioned on a row.  The
callback is modelled with an explicit capture state `γ` (C++ lambdas mutate
their captures) and may throw (`Except.error`).  Each iteration invokes the
callback on the current row, then steps; stepping past the last row yields
`Exhausted`, the loop exits and `reset()` returns the cursor to `ready` —
those two engine calls are fused into the final result here.  A callback
throw propagates immediately: the pending `reset()` is NOT executed (there is
no try/catch or scope guard in the source), so the statement is left on the
row where the failure occurred. -/
def forEachRowLoop {σ γ : Type} (fn : Statement σ → γ → Except String γ)
    (prog : StmtProg σ) (binds : List (Option Value)) :
    Row → List Row → Database σ → γ → Cpp Unit (Statement σ × Database σ × γ)
  | cur, [], db, g =>
    match fn ⟨prog, binds, Cursor.hasRow cur []⟩ g with
    | .error m => .exn m (⟨prog, binds, Cursor.hasRow cur []⟩, db, g)
    | .ok g1 => .ret () (⟨prog, binds, Cursor.ready⟩, db, g1)
  | cur, r :: rest, db, g =>
    match fn ⟨prog, binds, Cursor.hasRow cur (r :: rest)⟩ g with
    | .error m => .exn m (⟨prog, binds, Cursor.hasRow cur (r :: rest)⟩, db, g)
    | .ok g1 => forEachRowLoop fn prog binds r rest db g1

/-- `Statement::forEachRow`: `while (step()) fn(*this); reset();`.  The three
outcomes of the first `step()` are matched directly: an engine error
propagates as the exception `step()` throws (before any callback runs), an
immediate `Exhausted` goes straight to `reset()`, and a first row enters the
loop. -/
def Statement.forEachRow {σ γ : Type} (fn : Statement σ → γ → Except String γ)
    (s : Statement σ) (db : Database σ) (g : γ) :
    Cpp Unit (Statement σ × Database σ × γ) :=
  match sqlite3_step s db with
  | (.err m, s1, db1) => .exn m (s1, db1, g)
  | (.done, s1, db1) => .ret () (Statement.reset s1, db1, g)
  | (.row cur pending, s1, db1) => forEachRowLoop fn s1.prog s1.binds cur pending db1 g

/-- `Statement::mapRows`: drives `forEachRow` with a lambda that pushes
`mapper(row)` onto a results vector captured by reference, and returns the
vector.  A throw from the mapper (or from `step`) propagates and no vector is
returned. -/
def Statement.mapRows {σ τ : Type} (mapper : Statement σ → Except String τ)
    (s : Statement σ) (db : Database σ) :
    Cpp (List τ) (Statement σ × Database σ) :=
  match Statement.forEachRow
      (fun row results => (mapper row).map (fun v => results ++ [v])) s db [] with
  | .ret () (s1, db1, results) => .ret results (s1, db1)
  | .exn m (s1, db1, _) => .exn m (s1, db1)

/-- The `while (step()) res.push_back(getInt(colIndex));` loop of
`Statement::column<int>` together with its trailing `reset()`, entered with
the cursor on a row (same loop shape as `forEachRowLoop`, specialised to the
push-back of one extracted column). -/
def columnIntLoop {σ : Type} (colIndex : Nat) (prog : StmtProg σ)
    (binds : List (Option Value)) :
    Row → List Row → Database σ → List Int → Cpp (List Int) (Statement σ × Database σ)
  | cur, [], db, res =>
    .ret (res ++ [Statement.getInt ⟨prog, binds, Cursor.hasRow cur []⟩ colIndex])
      (⟨prog, binds, Cursor.ready⟩, db)
  | cur, r :: rest, db, res =>
    columnIntLoop colIndex prog binds r rest db
      (res ++ [Statement.getInt ⟨prog, binds, Cursor.hasRow cur (r :: rest)⟩ colIndex])

/-- `Statement::column<int>`. -/
def Statement.columnInt {σ : Type} (colIndex : Nat) (s : Statement σ)
    (db : Database σ) : Cpp (List Int) (Statement σ × Database σ) :=
  match sqlite3_step s db with
  | (.err m, s1, db1) => .exn m (s1, db1)
  | (.done, s1, db1) => .ret [] (Statement.reset s1, db1)
  | (.row cur pending, s1, db1) => columnIntLoop colIndex s1.prog s1.binds cur pending db1 []

/-- The extraction loop of `Statement::column<double>`. -/
def columnDoubleLoop {σ : Type} (colIndex : Nat) (prog : StmtProg σ)
    (binds : List (Option Value)) :
    Row → List Row → Database σ → List Rat → Cpp (List Rat) (Statement σ × Database σ)
  | cur, [], db, res =>
    .ret (res ++ [Statement.getDouble ⟨prog, binds, Cursor.hasRow cur []⟩ colIndex])
      (⟨prog, binds, Cursor.ready⟩, db)
  | cur, r :: rest, db, res =>
    columnDoubleLoop colIndex prog binds r rest db
      (res ++ [Statement.getDouble ⟨prog, binds, Cursor.hasRow cur (r :: rest)⟩ colIndex])

/-- `Statement::column<double>`. -/
def Statement.columnDouble {σ : Type} (colIndex : Nat) (s : Statement σ)
    (db : Database σ) : Cpp (List Rat) (Statement σ × Database σ) :=
  match sqlite3_step s db with
  | (.err m, s1, db1) => .exn m (s1, db1)
  | (.done, s1, db1) => .ret [] (Statement.reset s1, db1)
  | (.row cur pending, s1, db1) => columnDoubleLoop colIndex s1.prog s1.binds cur pending db1 []

/-- The extraction loop of `Statement::column<std::string>`. -/
def columnTextLoop {σ : Type} (colIndex : Nat) (prog : StmtProg σ)
    (binds : List (Option Value)) :
    Row → List Row → Database σ → List String → Cpp (List String) (Statement σ × Database σ)
  | cur, [], db, res =>
    .ret (res ++ [Statement.getText ⟨prog, binds, Cursor.hasRow cur []⟩ colIndex])
      (⟨prog, binds, Cursor.ready⟩, db)
  | cur, r :: rest, db, res =>
    columnTextLoop colIndex prog binds r rest db
      (res ++ [Statement.getText ⟨prog, binds, Cursor.hasRow cur (r :: rest)⟩ colIndex])

/-- `Statement::column<std::string>`. -/
def Statement.columnText {σ : Type} (colIndex : Nat) (s : Statement σ)
    (db : Database σ) : Cpp (List String) (Statement σ × Database σ) :=
  match sqlite3_step s db with
  | (.err m, s1, db1) => .exn m (s1, db1)
  | (.done, s1, db1) => .ret [] (Statement.reset s1, db1)
  | (.row cur pending, s1, db1) => columnTextLoop colIndex s1.prog s1.binds cur pending db1 []

/-- `Database::Transaction`: the guard object, holding only the
`active_` flag.  Its reference to the owning `Database` is threaded
explicitly through the operations below. -/
structure Transaction : Type where
  active : Bool

/-- The `Transaction(Database&)` constructor: issues `BEGIN;`; on success the
scope starts with `active_ = true`, on failure the exception propagates and
no scope object exists. -/
def Transaction.create {σ : Type} (db : Database σ) :
    Cpp Transaction (Database σ) :=
  match Database.execute db "BEGIN;" with
  | .ret () db1 => .ret ⟨true⟩ db1
  | .exn m db1 => .exn m db1

/-- `Transaction::commit`: `db_.execute("COMMIT;"); active_ = false;` — the
flag is cleared only after `execute` returns normally; when COMMIT throws,
the assignment never runs and the scope stays active. -/
def Transaction.commit {σ : Type} (t : Transaction) (db : Database σ) :
    Cpp Unit (Transaction × Database σ) :=
  match Database.execute db "COMMIT;" with
  | .ret () db1 => .ret () (⟨false⟩, db1)
  | .exn m db1 => .exn m (t, db1)

/-- `Transaction::rollback`: `db_.execute("ROLLBACK;"); active_ = false;`. -/
def Transaction.rollback {σ : Type} (t : Transaction) (db : Database σ) :
    Cpp Unit (Transaction × Database σ) :=
  match Database.execute db "ROLLBACK;" with
  | .ret () db1 => .ret () (⟨false⟩, db1)
  | .exn m db1 => .exn m (t, db1)

/-- `~Transaction()`: `if (active_) db_.execute("ROLLBACK;");` — there is no
try/catch in the destructor body, so a failure of the ROLLBACK escapes it
unhandled (under C++ rules a destructor is implicitly noexcept, so such an
escape terminates the program). -/
def Transaction.destruct {σ : Type} (t : Transaction) (db : Database σ) :
    Cpp Unit (Database σ) :=
  if t.active then
    match Database.execute db "ROLLBACK;" with
    | .ret () db1 => .ret () db1
    | .exn m db1 => .exn m db1
  else .ret () db

/-- The successive `Statement` values a full cursor walk passes through, one
per result row: at the i-th row the cursor is `hasRow` on that row with the
later rows pending. -/
def visitedStates {σ : Type} (prog : StmtProg σ) (binds : List (Option Value)) :
    List Row → List (Statement σ)
  | [] => []
  | r :: rest => ⟨prog, binds, Cursor.hasRow r rest⟩ :: visitedStates prog binds rest

/-- Test fixture: an engine over trivial contents whose ordinary SQL does
nothing and that is never busy. -/
def unitEng : Engine Unit := ⟨fun _ s => (s, none), false⟩

/-- Test fixture: an open database over trivial contents, no transaction
active. -/
def unitDb : Database Unit := ⟨unitEng, (), none⟩

/-- Test fixture: a compiled read-only SELECT producing one single-column
row. -/
def selProg : StmtProg Unit :=
  ⟨0, fun _ => 0, fun _ u => Except.ok ([[Value.intV 1]], u)⟩

/-- Test fixture: a compiled read-only SELECT producing two single-column
rows. -/
def sel2Prog : StmtProg Unit :=
  ⟨0, fun _ => 0, fun _ u => Except.ok ([[Value.intV 1], [Value.intV 2]], u)⟩

/-- Test fixture, modelling the compiled `INSERT INTO t(v) VALUES(:v)` of the
spec's rebinding scenario over contents `List Value` (column `v` of table
`t`, in insertion order): one parameter, named `:v`, whose bound value (NULL
when unbound) is appended to the table; no result rows. -/
def insertProg : StmtProg (List Value) :=
  ⟨1, fun n => if n = ":v" then 1 else 0,
    fun binds table => Except.ok ([], table ++ [(binds.getD 0 none).getD Value.nullV])⟩

/-- Test fixture: a quiet engine over `List Value` contents. -/
def listEng : Engine (List Value) := ⟨fun _ s => (s, none), false⟩

/-- Test fixture: an open database with the empty table, no transaction
active. -/
def tableDb : Database (List Value) := ⟨listEng, [], none⟩

/-- Pushing each mapped element onto an accumulator from the left collects
the mapped list after the accumulator. -/
theorem foldl_push {α β : Type} (f : α → β) :
    ∀ (l : List α) (acc : List β),
      l.foldl (fun res st => res ++ [f st]) acc = acc ++ l.map f := by
  intro l
  induction l with
  | nil => intro acc; simp
  | cons x xs ih => intro acc; simp [ih]

/-- A cursor walk passes through exactly one state per result row. -/
theorem visitedStates_length {σ : Type} (prog : StmtProg σ)
    (binds : List (Option Value)) :
    ∀ rows : List Row, (visitedStates prog binds rows).length = rows.length := by
  intro rows
  induction rows with
  | nil => simp [visitedStates]
  | cons r rest ih => simp [visitedStates, ih]

/-- When the callback never throws, the row loop completes normally: it folds
the callback over the visited row states, leaves the database untouched and
the cursor back in `ready`. -/
theorem forEachRowLoop_of_ok {σ γ : Type} (fn : Statement σ → γ → Except String γ)
    (f : Statement σ → γ → γ) (hfn : ∀ st g, fn st g = Except.ok (f st g))
    (prog : StmtProg σ) (binds : List (Option Value)) :
    ∀ (pending : List Row) (cur : Row) (db : Database σ) (g : γ),
      forEachRowLoop fn prog binds cur pending db g
        = Cpp.ret () (⟨prog, binds, Cursor.ready⟩, db,
            (visitedStates prog binds (cur :: pending)).foldl (fun a st => f st a) g) := by
  intro pending
  induction pending with
  | nil => intro cur db g; simp [forEachRowLoop, hfn, visitedStates]
  | cons r rest ih => intro cur db g; simp [forEachRowLoop, hfn, visitedStates, ih]

/-- Whenever the row loop returns normally, the trailing `reset()` ran: the
final cursor is `ready`. -/
theorem forEachRowLoop_ret_ready {σ γ : Type} (fn : Statement σ → γ → Except String γ)
    (prog : StmtProg σ) (binds : List (Option Value)) :
    ∀ (pending : List Row) (cur : Row) (db : Database σ) (g : γ)
      (s1 : Statement σ) (db1 : Database σ) (g1 : γ),
      forEachRowLoop fn prog binds cur pending db g = Cpp.ret () (s1, db1, g1) →
      s1.cursor = Cursor.ready := by
  intro pending
  induction pending with
  | nil =>
    intro cur db g s1 db1 g1 h
    unfold forEachRowLoop at h
    cases hfn : fn ⟨prog, binds, Cursor.hasRow cur []⟩ g with
    | error m => rw [hfn] at h; exact Cpp.noConfusion h
    | ok g2 =>
      rw [hfn] at h
      simp only [Cpp.ret.injEq, Prod.mk.injEq] at h
      obtain ⟨hs, -, -⟩ := h.2
      rw [← hs]
  | cons r rest ih =>
    intro cur db g s1 db1 g1 h
    unfold forEachRowLoop at h
    cases hfn : fn ⟨prog, binds, Cursor.hasRow cur (r :: rest)⟩ g with
    | error m => rw [hfn] at h; exact Cpp.noConfusion h
    | ok g2 =>
      rw [hfn] at h
      exact ih r db g2 s1 db1 g1 h

/-- Whenever the row loop propagates an exception, the trailing `reset()` was
skipped: the statement is left on the row where the callback threw, never in
`ready`. -/
theorem forEachRowLoop_exn_not_ready {σ γ : Type} (fn : Statement σ → γ → Except String γ)
    (prog : StmtProg σ) (binds : List (Option Value)) :
    ∀ (pending : List Row) (cur : Row) (db : Database σ) (g : γ)
      (m : String) (s1 : Statement σ) (db1 : Database σ) (g1 : γ),
      forEachRowLoop fn prog binds cur pending db g = Cpp.exn m (s1, db1, g1) →
      s1.cursor ≠ Cursor.ready := by
  intro pending
  induction pending with
  | nil =>
    intro cur db g m s1 db1 g1 h
    unfold forEachRowLoop at h
    cases hfn : fn ⟨prog, binds, Cursor.hasRow cur []⟩ g with
    | error m2 =>
      rw [hfn] at h
      simp only [Cpp.exn.injEq, Prod.mk.injEq] at h
      obtain ⟨hs, -, -⟩ := h.2
      rw [← hs]
      simp
    | ok g2 => rw [hfn] at h; exact Cpp.noConfusion h
  | cons r rest ih =>
    intro cur db g m s1 db1 g1 h
    unfold forEachRowLoop at h
    cases hfn : fn ⟨prog, binds, Cursor.hasRow cur (r :: rest)⟩ g with
    | error m2 =>
      rw [hfn] at h
      simp only [Cpp.exn.injEq, Prod.mk.injEq] at h
      obtain ⟨hs, -, -⟩ := h.2
      rw [← hs]
      simp
    | ok g2 => rw [hfn] at h; exact ih r db g2 m s1 db1 g1 h

/-- The `column<int>` loop collects the column extracted from every visited
row state, leaves the database untouched and resets the cursor. -/
theorem columnIntLoop_eq {σ : Type} (col : Nat) (prog : StmtProg σ)
    (binds : List (Option Value)) :
    ∀ (pending : List Row) (cur : Row) (db : Database σ) (res : List Int),
      columnIntLoop col prog binds cur pending db res
        = Cpp.ret (res ++ (visitedStates prog binds (cur :: pending)).map
            (fun st => Statement.getInt st col)) (⟨prog, binds, Cursor.ready⟩, db) := by
  intro pending
  induction pending with
  | nil => intro cur db res; simp [columnIntLoop, visitedStates]
  | cons r rest ih => intro cur db res; simp [columnIntLoop, visitedStates, ih]

/-- The `column<double>` loop, characterised like `columnIntLoop_eq`. -/
theorem columnDoubleLoop_eq {σ : Type} (col : Nat) (prog : StmtProg σ)
    (binds : List (Option Value)) :
    ∀ (pending : List Row) (cur : Row) (db : Database σ) (res : List Rat),
      columnDoubleLoop col prog binds cur pending db res
        = Cpp.ret (res ++ (visitedStates prog binds (cur :: pending)).map
            (fun st => Statement.getDouble st col)) (⟨prog, binds, Cursor.ready⟩, db) := by
  intro pending
  induction pending with
  | nil => intro cur db res; simp [columnDoubleLoop, visitedStates]
  | cons r rest ih => intro cur db res; simp [columnDoubleLoop, visitedStates, ih]

/-- The `column<std::string>` loop, characterised like `columnIntLoop_eq`. -/
theorem columnTextLoop_eq {σ : Type} (col : Nat) (prog : StmtProg σ)
    (binds : List (Option Value)) :
    ∀ (pending : List Row) (cur : Row) (db : Database σ) (res : List String),
      columnTextLoop col prog binds cur pending db res
        = Cpp.ret (res ++ (visitedStates prog binds (cur :: pending)).map
            (fun st => Statement.getText st col)) (⟨prog, binds, Cursor.ready⟩, db) := by
  intro pending
  induction pending with
  | nil => intro cur db res; simp [columnTextLoop, visitedStates]
  | cons r rest ih => intro cur db res; simp [columnTextLoop, visitedStates, ih]

/-- Test fixture: the spec's rebinding scenario over `insertProg` —
prepare `INSERT INTO t(v) VALUES(:v)`, bind `:v` to `"a"`, step to
completion, reset, bind `:v` to `"b"`, step again — starting from the empty
table with no transaction active. -/
def rebindOutcome : Cpp Bool (Statement (List Value) × Database (List Value)) :=
  match Statement.step (Statement.bindNamedText ":v" "a" (Database.prepare insertProg)) tableDb with
  | .exn m st => .exn m st
  | .ret _ (s1, db1) =>
    Statement.step (Statement.bindNamedText ":v" "b" (Statement.reset s1)) db1

/-- C1: a `Transaction` scope on which neither `commit()` nor `rollback()`
has (successfully) run is destroyed with `active_` still true, so the
destructor issues `ROLLBACK` and the database returns to exactly the
committed contents `c` it held before the constructor's `BEGIN` — whatever
working contents `w` the statements inside the scope produced, the net
effect is that of never having started the transaction.  Once `commit()` or
`rollback()` has completed (`active_` false), the destructor issues no SQL
at all: it is the identity on the database. -/
theorem transaction_unresolved_destruct_rolls_back {σ : Type} (eng : Engine σ) (c w : σ) :
    Transaction.create ⟨eng, c, none⟩ = Cpp.ret ⟨true⟩ ⟨eng, c, some c⟩
    ∧ Transaction.destruct ⟨true⟩ ⟨eng, c, some w⟩ = Cpp.ret () ⟨eng, c, none⟩
    ∧ ∀ db : Database σ, Transaction.destruct ⟨false⟩ db = Cpp.ret () db :=
  ⟨rfl, rfl, fun _ => rfl⟩

/-- C4 (amended): the destructor's automatic `ROLLBACK` runs unguarded —
when `Database::execute("ROLLBACK;")` fails (here: no transaction is active
any more), the `SQLiteException` escapes the destructor body instead of
being swallowed or logged; under C++ rules a destructor is implicitly
noexcept, so this terminates the program rather than unwinding further. -/
theorem transaction_destruct_unguarded_rollback_error {σ : Type} (eng : Engine σ) (c : σ) :
    Transaction.destruct ⟨true⟩ ⟨eng, c, none⟩
      = Cpp.exn "cannot rollback - no transaction is active" ⟨eng, c, none⟩ := rfl

/-- C4 (counterexample): a concrete run in which the automatic rollback of a
still-active scope fails and the failure is NOT swallowed: after
`Transaction t(db);` followed by a direct `db.execute("ROLLBACK;")` inside
the scope, the destructor's own `ROLLBACK` raises and the destructor
propagates the engine error (the result is an exception, not a normal
return), contradicting the claim that such a failure never leaves the
destructor. -/
theorem transaction_destruct_propagates_rollback_error_cex :
    Transaction.create unitDb = Cpp.ret ⟨true⟩ ⟨unitEng, (), some ()⟩
    ∧ Database.execute ⟨unitEng, (), some ()⟩ "ROLLBACK;" = Cpp.ret () unitDb
    ∧ Transaction.destruct ⟨true⟩ unitDb
        = Cpp.exn "cannot rollback - no transaction is active" unitDb
    ∧ Cpp.isRet (Transaction.destruct ⟨true⟩ unitDb) = false :=
  ⟨rfl, rfl, rfl, rfl⟩

/-- C9: when `COMMIT` itself fails (engine busy), `commit()` throws before
the `active_ = false;` assignment runs, so the scope stays pending and a
later destruction still issues the automatic `ROLLBACK`; the scope is marked
resolved only by a `COMMIT` or `ROLLBACK` that completes normally. -/
theorem commit_failure_keeps_scope_pending {σ : Type}
    (ap : String → σ → σ × Option String) (c w : σ) :
    Transaction.commit ⟨true⟩ ⟨⟨ap, true⟩, c, some w⟩
      = Cpp.exn "database is locked" (⟨true⟩, ⟨⟨ap, true⟩, c, some w⟩)
    ∧ Transaction.destruct ⟨true⟩ ⟨⟨ap, true⟩, c, some w⟩ = Cpp.ret () ⟨⟨ap, true⟩, c, none⟩
    ∧ Transaction.commit ⟨true⟩ ⟨⟨ap, false⟩, c, some w⟩
      = Cpp.ret () (⟨false⟩, ⟨⟨ap, false⟩, w, none⟩)
    ∧ Transaction.rollback ⟨true⟩ ⟨⟨ap, true⟩, c, some w⟩
      = Cpp.ret () (⟨false⟩, ⟨⟨ap, true⟩, c, none⟩) :=
  ⟨rfl, rfl, rfl, rfl⟩

/-- C5: a named bind whose name resolves to no parameter of the compiled
statement (`sqlite3_bind_parameter_index` returns 0) is a silent no-op for
all three value types: no error is raised (the operations are total and
return the statement) and the statement — bound-parameter set and cursor
included — is returned unchanged. -/
theorem named_bind_unknown_name_noop {σ : Type} (s : Statement σ) (name : String)
    (i : Int) (d : Rat) (t : String) (h : s.prog.nameIndex name = 0) :
    Statement.bindNamedInt name i s = s
    ∧ Statement.bindNamedDouble name d s = s
    ∧ Statement.bindNamedText name t s = s := by
  refine ⟨?_, ?_, ?_⟩ <;>
    simp [Statement.bindNamedInt, Statement.bindNamedDouble, Statement.bindNamedText,
      sqlite3_bind_parameter_index, h]

/-- C5 witness: binding the unknown name `:x` on a statement compiled from
`INSERT INTO t(v) VALUES(:v)` changes nothing, for each value type. -/
theorem named_bind_unknown_name_noop_witness :
    (Database.prepare insertProg).prog.nameIndex ":x" = 0
    ∧ (Statement.bindNamedInt ":x" 5 (Database.prepare insertProg) = Database.prepare insertProg
       ∧ Statement.bindNamedDouble ":x" 5 (Database.prepare insertProg) = Database.prepare insertProg
       ∧ Statement.bindNamedText ":x" "a" (Database.prepare insertProg) = Database.prepare insertProg) :=
  ⟨rfl, named_bind_unknown_name_noop (Database.prepare insertProg) ":x" 5 5 "a" rfl⟩

/-- C10: a positional bind with an index outside the statement's parameter
range returns normally for all three value types — the wrapper discards the
engine's status code — and the bind is silently ignored: the engine reports
a non-OK code (SQLITE_RANGE, or SQLITE_MISUSE when the statement is mid
execution) and the statement is unchanged, but the caller never learns of
it. -/
theorem positional_bind_discards_status {σ : Type} (s : Statement σ) (index : Int)
    (i : Int) (d : Rat) (t : String)
    (h : index < 1 ∨ (s.prog.numParams : Int) < index) :
    Statement.bindInt index i s = s
    ∧ Statement.bindDouble index d s = s
    ∧ Statement.bindText index t s = s
    ∧ (sqlite3_bind_int s index i).1 ≠ SQLITE_OK
    ∧ (sqlite3_bind_double s index d).1 ≠ SQLITE_OK
    ∧ (sqlite3_bind_text s index t).1 ≠ SQLITE_OK := by
  have hrange : ¬(1 ≤ index ∧ index ≤ (s.prog.numParams : Int)) := by
    rcases h with h | h <;> (intro hc; omega)
  have hbind : ∀ v : Value, sqlite3_bind_value s index v
      = (if s.cursor = Cursor.ready then SQLITE_RANGE else SQLITE_MISUSE, s) := by
    intro v
    unfold sqlite3_bind_value
    by_cases hc : s.cursor = Cursor.ready <;> simp [hc, hrange]
  have hne : (if s.cursor = Cursor.ready then SQLITE_RANGE else SQLITE_MISUSE) ≠ SQLITE_OK := by
    unfold SQLITE_OK SQLITE_RANGE SQLITE_MISUSE
    by_cases hc : s.cursor = Cursor.ready <;> simp [hc]
  exact ⟨by simp [Statement.bindInt, sqlite3_bind_int, hbind],
    by simp [Statement.bindDouble, sqlite3_bind_double, hbind],
    by simp [Statement.bindText, sqlite3_bind_text, hbind],
    by simp [sqlite3_bind_int, hbind]; exact hne,
    by simp [sqlite3_bind_double, hbind]; exact hne,
    by simp [sqlite3_bind_text, hbind]; exact hne⟩

/-- C10 witness: binding position 2 on a one-parameter statement is silently
ignored for each value type, and the discarded status code was not
SQLITE_OK. -/
theorem positional_bind_discards_status_witness :
    ((2 : Int) < 1 ∨ ((Database.prepare insertProg).prog.numParams : Int) < 2)
    ∧ (Statement.bindInt 2 7 (Database.prepare insertProg) = Database.prepare insertProg
       ∧ Statement.bindDouble 2 7 (Database.prepare insertProg) = Database.prepare insertProg
       ∧ Statement.bindText 2 "x" (Database.prepare insertProg) = Database.prepare insertProg
       ∧ (sqlite3_bind_int (Database.prepare insertProg) 2 7).1 ≠ SQLITE_OK
       ∧ (sqlite3_bind_double (Database.prepare insertProg) 2 7).1 ≠ SQLITE_OK
       ∧ (sqlite3_bind_text (Database.prepare insertProg) 2 "x").1 ≠ SQLITE_OK) :=
  ⟨by right; simp [Database.prepare, insertProg], positional_bind_discards_status
    (Database.prepare insertProg) 2 7 7 "x" (by right; simp [Database.prepare, insertProg])⟩

/-- C7: `reset()` is valid from any cursor state, returns the cursor to
`ready` and leaves every bound parameter exactly as it was; consequently the
spec's rebinding scenario — bind `:v` to `"a"`, step to completion, reset,
bind `:v` to `"b"`, step again — completes normally and leaves the table
holding both rows `"a"` and `"b"` in insertion order, not one overwritten
row. -/
theorem reset_keeps_bindings_rebind_scenario :
    (∀ (σ : Type) (s : Statement σ),
        (Statement.reset s).cursor = Cursor.ready ∧ (Statement.reset s).binds = s.binds)
    ∧ Cpp.isRet rebindOutcome = true
    ∧ (Cpp.state rebindOutcome).2.committed = [Value.textV "a", Value.textV "b"] :=
  ⟨fun _ _ => ⟨rfl, rfl⟩, rfl, rfl⟩

/-- C8: in the `hasRow` state, a column holding SQL NULL (or an index past
the row's end, which the engine also reports as NULL) is returned by
`getText` as the empty string, never a null reference. -/
theorem getText_null_column_empty_string {σ : Type} (prog : StmtProg σ)
    (binds : List (Option Value)) (cur : Row) (pending : List Row) (col : Nat)
    (h : cur.getD col Value.nullV = Value.nullV) :
    Statement.getText (⟨prog, binds, Cursor.hasRow cur pending⟩ : Statement σ) col = "" := by
  have h2 : cur[col]?.getD Value.nullV = Value.nullV := by simpa [List.getD] using h
  simp [Statement.getText, sqlite3_column_text, sqlite3_column_value, Value.asTextPtr, h2]

/-- C8 witness: reading a NULL column of the current row yields `""`. -/
theorem getText_null_column_empty_string_witness :
    List.getD [Value.nullV] 0 Value.nullV = Value.nullV
    ∧ Statement.getText (⟨selProg, [], Cursor.hasRow [Value.nullV] []⟩ : Statement Unit) 0 = "" :=
  ⟨rfl, getText_null_column_empty_string selProg [] [Value.nullV] [] 0 rfl⟩

/-- A first `sqlite3_step` that reports an engine error leaves the statement
needing a reset (cursor `done`), not in `ready`. -/
theorem sqlite3_stepStart_err_done {σ : Type} (s : Statement σ) (db : Database σ)
    (m : String) (s1 : Statement σ) (db1 : Database σ)
    (h : sqlite3_stepStart s db = (.err m, s1, db1)) : s1.cursor = Cursor.done := by
  unfold sqlite3_stepStart at h
  cases hexec : s.prog.exec s.binds db.working with
  | error m2 =>
    rw [hexec] at h
    simp only [Prod.mk.injEq, StepR.err.injEq] at h
    obtain ⟨-, hs, -⟩ := h
    rw [← hs]
  | ok p =>
    rw [hexec] at h
    rcases p with ⟨rows, w⟩
    cases rows <;> simp at h

/-- Any `sqlite3_step` reporting an engine error leaves the cursor in
`done`, never in `ready`. -/
theorem sqlite3_step_err_done {σ : Type} (s : Statement σ) (db : Database σ)
    (m : String) (s1 : Statement σ) (db1 : Database σ)
    (h : sqlite3_step s db = (.err m, s1, db1)) : s1.cursor = Cursor.done := by
  unfold sqlite3_step at h
  cases hc : s.cursor with
  | ready =>
    rw [hc] at h
    exact sqlite3_stepStart_err_done s db m s1 db1 h
  | hasRow cur pending =>
    rw [hc] at h
    cases pending <;> simp at h
  | done =>
    rw [hc] at h
    exact sqlite3_stepStart_err_done s db m s1 db1 h

/-- C2: on a statement in `ready` whose execution yields the row list `rows`
without error, `forEachRow` with a non-throwing callback returns normally,
invokes the callback once per row — folding it, in order, over exactly the
`hasRow` statement states of the walk, which number `rows.length` — and
leaves the statement back in `ready` (the trailing `reset()` ran). -/
theorem forEachRow_visits_each_row_once {σ γ : Type} (prog : StmtProg σ)
    (binds : List (Option Value)) (db : Database σ) (rows : List Row) (w : σ)
    (f : Statement σ → γ → γ) (g0 : γ)
    (hexec : prog.exec binds db.working = Except.ok (rows, w)) :
    Statement.forEachRow (fun st g => Except.ok (f st g)) ⟨prog, binds, Cursor.ready⟩ db g0
      = Cpp.ret () (⟨prog, binds, Cursor.ready⟩, db.setWorking w,
          (visitedStates prog binds rows).foldl (fun a st => f st a) g0)
    ∧ (visitedStates prog binds rows).length = rows.length := by
  constructor
  · cases rows with
    | nil =>
      simp [Statement.forEachRow, sqlite3_step, sqlite3_stepStart, hexec,
        Statement.reset, visitedStates]
    | cons r rest =>
      simp only [Statement.forEachRow, sqlite3_step, sqlite3_stepStart, hexec]
      rw [forEachRowLoop_of_ok (fun st g => Except.ok (f st g)) f (fun _ _ => rfl)
        prog binds rest r (db.setWorking w) g0]
  · exact visitedStates_length prog binds rows

/-- C2 witness: a two-row SELECT visits its callback exactly twice — the
counting callback ends at 2 — and leaves the statement in `ready`. -/
theorem forEachRow_visits_each_row_once_witness :
    sel2Prog.exec [] (Database.working unitDb)
        = Except.ok ([[Value.intV 1], [Value.intV 2]], ())
    ∧ (Statement.forEachRow (fun st g => Except.ok ((fun (_ : Statement Unit) (n : Nat) => n + 1) st g))
          ⟨sel2Prog, [], Cursor.ready⟩ unitDb 0
        = Cpp.ret () (⟨sel2Prog, [], Cursor.ready⟩, Database.setWorking unitDb (),
            (visitedStates sel2Prog [] [[Value.intV 1], [Value.intV 2]]).foldl
              (fun a st => (fun (_ : Statement Unit) (n : Nat) => n + 1) st a) 0)
        ∧ (visitedStates sel2Prog [] [[Value.intV 1], [Value.intV 2]]).length
            = ([[Value.intV 1], [Value.intV 2]] : List Row).length) :=
  ⟨rfl, forEachRow_visits_each_row_once sel2Prog [] unitDb [[Value.intV 1], [Value.intV 2]] ()
    (fun _ n => n + 1) 0 rfl⟩

/-- C3 (counterexample): the claim that `forEachRow` resets the cursor on
every exit path fails on the code — there is no try/catch or scope guard
around `while (step()) fn(*this); reset();` — so when the per-row callback
throws on the first row of a one-row query, `forEachRow` propagates the
exception with the statement still in `hasRow`, not `ready`: the pending
`reset()` was skipped. -/
theorem forEachRow_skips_reset_on_callback_error_cex :
    Statement.forEachRow (fun _ _ => Except.error "boom") (Database.prepare selProg) unitDb ()
      = Cpp.exn "boom" (⟨selProg, [], Cursor.hasRow [Value.intV 1] []⟩, unitDb, ())
    ∧ Cursor.hasRow [Value.intV 1] [] ≠ Cursor.ready :=
  ⟨rfl, by decide⟩

/-- C3 (amended): the cursor is returned to `ready` on the NORMAL exit path
only — whenever `forEachRow` returns without throwing, the trailing
`reset()` ran; but when an exception propagates out of the per-row callback
or out of `step()`, `forEachRow` does not perform the pending `reset()` and
the statement is left in a non-`ready` state (the `hasRow` of the failing
row, or the post-error state of `step`). -/
theorem forEachRow_reset_only_on_normal_return {σ γ : Type}
    (fn : Statement σ → γ → Except String γ) (s : Statement σ) (db : Database σ) (g : γ) :
    (∀ (s1 : Statement σ) (db1 : Database σ) (g1 : γ),
        Statement.forEachRow fn s db g = Cpp.ret () (s1, db1, g1) → s1.cursor = Cursor.ready)
    ∧ (∀ (m : String) (s1 : Statement σ) (db1 : Database σ) (g1 : γ),
        Statement.forEachRow fn s db g = Cpp.exn m (s1, db1, g1) → s1.cursor ≠ Cursor.ready) := by
  constructor
  · intro s1 db1 g1 h
    unfold Statement.forEachRow at h
    rcases hstep : sqlite3_step s db with ⟨r, s2, db2⟩
    rw [hstep] at h
    cases r with
    | err m => exact Cpp.noConfusion h
    | done =>
      simp only [Cpp.ret.injEq, Prod.mk.injEq] at h
      obtain ⟨hs, -, -⟩ := h.2
      rw [← hs]
      rfl
    | row cur pending =>
      exact forEachRowLoop_ret_ready fn s2.prog s2.binds pending cur db2 g s1 db1 g1 h
  · intro m s1 db1 g1 h
    unfold Statement.forEachRow at h
    rcases hstep : sqlite3_step s db with ⟨r, s2, db2⟩
    rw [hstep] at h
    cases r with
    | err m2 =>
      simp only [Cpp.exn.injEq, Prod.mk.injEq] at h
      obtain ⟨hs, -, -⟩ := h.2
      rw [← hs, sqlite3_step_err_done s db m2 s2 db2 hstep]
      simp
    | done => exact Cpp.noConfusion h
    | row cur pending =>
      exact forEachRowLoop_exn_not_ready fn s2.prog s2.binds pending cur db2 g m s1 db1 g1 h

/-- C3 amended witness: on a one-row query, a non-throwing run ends with the
cursor in `ready`, and a run whose callback throws ends with the cursor
still on the row. -/
theorem forEachRow_reset_only_on_normal_return_witness :
    Statement.cursor (⟨selProg, [], Cursor.ready⟩ : Statement Unit) = Cursor.ready
    ∧ Statement.cursor (⟨selProg, [], Cursor.hasRow [Value.intV 1] []⟩ : Statement Unit)
        ≠ Cursor.ready :=
  ⟨(forEachRow_reset_only_on_normal_return (fun _ g => Except.ok g)
      (Database.prepare selProg) unitDb ()).1 ⟨selProg, [], Cursor.ready⟩ unitDb () rfl,
   (forEachRow_reset_only_on_normal_return (fun _ _ => Except.error "boom")
      (Database.prepare selProg) unitDb ()).2 "boom"
      ⟨selProg, [], Cursor.hasRow [Value.intV 1] []⟩ unitDb () rfl⟩

/-- C6: for every statement, database and column index, each `column<T>`
specialization returns exactly what `mapRows<T>` returns when given the
mapper that extracts that column as `T` — the identical `Cpp` outcome: same
elements in the same order, same final statement (cursor driven to
exhaustion and reset) and database, and the same error propagation. -/
theorem column_refines_mapRows {σ : Type} (col : Nat) (s : Statement σ) (db : Database σ) :
    Statement.columnInt col s db
      = Statement.mapRows (fun row => Except.ok (Statement.getInt row col)) s db
    ∧ Statement.columnDouble col s db
      = Statement.mapRows (fun row => Except.ok (Statement.getDouble row col)) s db
    ∧ Statement.columnText col s db
      = Statement.mapRows (fun row => Except.ok (Statement.getText row col)) s db := by
  refine ⟨?_, ?_, ?_⟩
  · rcases hstep : sqlite3_step s db with ⟨r, s2, db2⟩
    cases r with
    | err m =>
      simp [Statement.columnInt, Statement.mapRows, Statement.forEachRow, hstep]
    | done =>
      simp [Statement.columnInt, Statement.mapRows, Statement.forEachRow, hstep]
    | row cur pending =>
      simp only [Statement.columnInt, Statement.mapRows, Statement.forEachRow, hstep]
      rw [columnIntLoop_eq col s2.prog s2.binds pending cur db2 [],
        forEachRowLoop_of_ok
          (fun row results => Except.map (fun v => results ++ [v])
            (Except.ok (Statement.getInt row col)))
          (fun st g => g ++ [Statement.getInt st col]) (fun _ _ => rfl)
          s2.prog s2.binds pending cur db2 []]
      simp [foldl_push]
  · rcases hstep : sqlite3_step s db with ⟨r, s2, db2⟩
    cases r with
    | err m =>
      simp [Statement.columnDouble, Statement.mapRows, Statement.forEachRow, hstep]
    | done =>
      simp [Statement.columnDouble, Statement.mapRows, Statement.forEachRow, hstep]
    | row cur pending =>
      simp only [Statement.columnDouble, Statement.mapRows, Statement.forEachRow, hstep]
      rw [columnDoubleLoop_eq col s2.prog s2.binds pending cur db2 [],
        forEachRowLoop_of_ok
          (fun row results => Except.map (fun v => results ++ [v])
            (Except.ok (Statement.getDouble row col)))
          (fun st g => g ++ [Statement.getDouble st col]) (fun _ _ => rfl)
          s2.prog s2.binds pending cur db2 []]
      simp [foldl_push]
  · rcases hstep : sqlite3_step s db with ⟨r, s2, db2⟩
    cases r with
    | err m =>
      simp [Statement.columnText, Statement.mapRows, Statement.forEachRow, hstep]
    | done =>
      simp [Statement.columnText, Statement.mapRows, Statement.forEachRow, hstep]
    | row cur pending =>
      simp only [Statement.columnText, Statement.mapRows, Statement.forEachRow, hstep]
      rw [columnTextLoop_eq col s2.prog s2.binds pending cur db2 [],
        forEachRowLoop_of_ok
          (fun row results => Except.map (fun v => results ++ [v])
            (Except.ok (Statement.getText row col)))
          (fun st g => g ++ [Statement.getText st col]) (fun _ _ => rfl)
          s2.prog s2.binds pending cur db2 []]
      simp [foldl_push]

end rdb
